import Mathlib

set_option maxHeartbeats 1000000

/-!
Shallow embedding of `src/Lib/fontbakery/profiles/fontwerk.py`
(the Fontwerk profile checks of fontbakery).

Modelling conventions:
* Real-valued font data (fvar default values, instance coordinates, STAT
  values, glyph coordinates) is modelled by `ℚ`.  Python's `math.isclose`
  is modelled over `ℚ` with its documented formula
  `abs(a-b) <= max(rel_tol*max(abs a, abs b), abs_tol)` (default
  `rel_tol = 1e-09`).
* Python exceptions (KeyError / AttributeError / IndexError / TypeError)
  are modelled with `Except String`; a raised exception aborts the whole
  check, exactly as an uncaught Python exception aborts the generator.
* The fontbakery checks are generator functions; each `yield STATUS, msg`
  is one `CheckItem` of the returned list.  A plain `return v` inside a
  Python generator terminates iteration WITHOUT yielding `v` (the value is
  discarded by the iterating caller), so such a branch contributes no
  items to the result list.
* `degrees(atan2(y, x))` is an external transcendental function; the
  embedding is parametrised by a function `f : ℚ → ℚ → ℚ` standing for
  `fun y x => degrees (atan2 y x)` (its output lies in `(-180, 180]`).
* `instancer.instantiateVariableFont` is the external instantiation
  capability; the embedding is parametrised by a function from instance
  coordinates to the instantiated font's `glyf` table.
* Python `dict`s are association lists keeping first-insertion key order,
  with assignment to an existing key replacing the value in place.
  Python `set`s are modelled as duplicate-free lists in first-insertion
  order; the checks only depend on their cardinality and membership.
-/

/-- One `fvar` axis: tag and default value. -/
structure FvarAxis where
  axisTag : String
  defaultValue : ℚ
deriving DecidableEq

/-- One `fvar` named instance: subfamily name ID and coordinates dict. -/
structure NamedInstance where
  subfamilyNameID : Nat
  coordinates : List (String × ℚ)
deriving DecidableEq

/-- The `fvar` table: axes and named instances. -/
structure FvarTable where
  axes : List FvarAxis
  instances : List NamedInstance
deriving DecidableEq

/-- The `OS/2` table (the checks only read `usWeightClass`). -/
structure OS2Table where
  usWeightClass : Nat
deriving DecidableEq

/-- A STAT `AxisValue` record.  Mirrors the OpenType formats as realised by
fontTools: each format only carries its own fields; in particular a
format-4 record has NO `AxisIndex` attribute (it has an `AxisValueRecord`
array of per-axis (axis index, value) pairs instead). -/
inductive AxisValue where
  | format1 (axisIndex : Nat) (value : ℚ)
  | format2 (axisIndex : Nat) (nominalValue : ℚ) (rangeMinValue : ℚ) (rangeMaxValue : ℚ)
  | format3 (axisIndex : Nat) (value : ℚ) (linkedValue : ℚ)
  | format4 (axisValueRecords : List (Nat × ℚ))
deriving DecidableEq

/-- The `STAT` table: `DesignAxisRecord.Axis` tag list and the (optional)
`AxisValueArray.AxisValue` list (`AxisValueArray` is `None` in fontTools
when the font has no axis values). -/
structure STATTable where
  designAxisTags : List String
  axisValueArray : Option (List AxisValue)
deriving DecidableEq

/-- A glyf-table glyph as realised by fontTools: a simple glyph (with
`coordinates` and `endPtsOfContours` attributes, `numberOfContours > 0`),
a composite glyph (with a `components` attribute, `numberOfContours = -1`),
or an empty glyph (`numberOfContours = 0`, none of those attributes).
Components are modelled as (base glyph name, x-offset, y-offset). -/
inductive Glyph where
  | simple (coordinates : List (ℚ × ℚ)) (endPtsOfContours : List Nat)
  | composite (components : List (String × ℚ × ℚ))
  | empty
deriving DecidableEq

/-- The parsed table model of one font, restricted to the tables the three
checks read.  `fvar` and `OS/2` are present (the checks are registered with
the `is_variable_font` condition and fontbakery only runs them when those
tables parse); `STAT` may be absent; the `name` table is modelled as a
resolved name-ID → string map (`getDebugName` returns `None` for IDs that
resolve to nothing). -/
structure Font where
  fvar : FvarTable
  os2 : OS2Table
  name : List (Nat × String)
  stat : Option STATTable
  glyphOrder : List String

/-- One `yield` of a fontbakery check: `yield PASS, desc` or
`yield FAIL, Message(keyword, desc)`. -/
inductive CheckItem where
  | pass (desc : String)
  | fail (keyword : String) (desc : String)
deriving DecidableEq

/-- `name.getDebugName(nameID)`: resolve a name ID, `None` when absent. -/
def getDebugName (name : List (Nat × String)) (nameID : Nat) : Option String :=
  (name.find? (fun r => r.1 == nameID)).map Prod.snd

/-- Number of `CheckItem.fail`s carrying a given message keyword. -/
def countKeyword (items : List CheckItem) (kw : String) : Nat :=
  (items.filter fun it =>
    match it with
    | .fail k _ => k == kw
    | .pass _ => false).length

/-- Python `int(q)` on a real value: truncation toward zero. -/
def pyInt (q : ℚ) : ℤ :=
  if q < 0 then ⌈q⌉ else ⌊q⌋

/-- `{a.axisTag: a.defaultValue for a in fvar.axes}` as an association
list; `dictGet` below gives Python-dict lookup semantics (duplicate keys
collapse to the LAST binding, as later comprehension iterations overwrite
earlier ones). -/
def default_axis_values (fvar : FvarTable) : List (String × ℚ) :=
  fvar.axes.map fun a => (a.axisTag, a.defaultValue)

/-- `d.get(k, None)` on a dict built left-to-right from `pairs`
(the last binding of a key wins). -/
def dictGet (pairs : List (String × ℚ)) (k : String) : Option ℚ :=
  (pairs.reverse.find? (fun p => p.1 == k)).map Prod.snd

/-- `com_fontwerk_check_weight_class_fvar` (fontwerk.py lines 136-155):
if the `wght` axis is absent the generator returns before any yield
(no items); otherwise it yields one FAIL `bad-weight-class` when
`OS/2.usWeightClass != int(fvar wght default)`, else one PASS. -/
def com_fontwerk_check_weight_class_fvar (font : Font) : List CheckItem :=
  match dictGet (default_axis_values font.fvar) "wght" with
  | none => []
  | some fvar_value =>
      if (font.os2.usWeightClass : ℤ) ≠ pyInt fvar_value then
        [CheckItem.fail "bad-weight-class"
          ("OS/2 usWeightClass is '" ++ toString font.os2.usWeightClass ++
           "', but should match fvar default value '" ++ toString fvar_value ++ "'.")]
      else
        [CheckItem.pass
          ("OS/2 usWeightClass '" ++ toString font.os2.usWeightClass ++
           "' matches fvar default value.")]

/-- Concrete font for the C3 witness: `wght` default 400, usWeightClass 400. -/
def c3font : Font where
  fvar := { axes := [{ axisTag := "wght", defaultValue := 400 }],
            instances := [] }
  os2 := { usWeightClass := 400 }
  name := []
  stat := none
  glyphOrder := []

/-- Concrete font for the C9 witness: no `wght` axis at all. -/
def c9font : Font where
  fvar := { axes := [{ axisTag := "wdth", defaultValue := 100 }],
            instances := [] }
  os2 := { usWeightClass := 400 }
  name := []
  stat := none
  glyphOrder := []

/-- Attribute access `ax_value.AxisIndex`: formats 1-3 carry the field, a
format-4 record does not (in fontTools only the fields of the record's own
format exist, so the access raises AttributeError). -/
def avAxisIndex : AxisValue → Option Nat
  | .format1 i _ => some i
  | .format2 i _ _ _ => some i
  | .format3 i _ _ => some i
  | .format4 _ => none

/-- The `stat_value` list built per record in `is_covered_in_stat`
(fontwerk.py lines 165-178): formats 1 and 3 append `Value`, format 3
additionally appends `LinkedValue`, format 2 appends `NominalValue`,
format 4 appends nothing. -/
def statValuesOf : AxisValue → List ℚ
  | .format1 _ v => [v]
  | .format2 _ nv _ _ => [nv]
  | .format3 _ v lv => [v, lv]
  | .format4 _ => []

def attrErrorAxisIndex : String :=
  "AttributeError: 'AxisValue' object has no attribute 'AxisIndex'"

/-- The per-record loop of `is_covered_in_stat` (lines 160-183).  For each
record the code reads
`stat_table.DesignAxisRecord.Axis[ax_value.AxisIndex].AxisTag` FIRST —
before the format dispatch — so a format-4 record (no `AxisIndex`
attribute) raises AttributeError, and an out-of-range axis index raises
IndexError.  A record whose axis tag differs is skipped; otherwise the
record returns `True` when `value` is in its `stat_value` list. -/
def is_covered_loop (designAxisTags : List String) (axis_tag : String) (value : ℚ) :
    List AxisValue → Except String Bool
  | [] => .ok false
  | av :: rest =>
      match avAxisIndex av with
      | none => .error attrErrorAxisIndex
      | some idx =>
          match designAxisTags[idx]? with
          | none => .error "IndexError: list index out of range"
          | some axis_tag_stat =>
              if axis_tag ≠ axis_tag_stat then
                is_covered_loop designAxisTags axis_tag value rest
              else if value ∈ statValuesOf av then .ok true
              else is_covered_loop designAxisTags axis_tag value rest

/-- `is_covered_in_stat(ttFont, axis_tag, value)` (lines 158-183).
`ttFont['STAT']` raises KeyError when the table is absent (callers guard
that case), and `AxisValueArray` may be `None` in fontTools, in which case
`.AxisValue` raises AttributeError. -/
def is_covered_in_stat (font : Font) (axis_tag : String) (value : ℚ) : Except String Bool :=
  match font.stat with
  | none => .error "KeyError: 'STAT'"
  | some stat =>
      match stat.axisValueArray with
      | none => .error "AttributeError: 'NoneType' object has no attribute 'AxisValue'"
      | some avs => is_covered_loop stat.designAxisTags axis_tag value avs

def missingNameMsg (nameID : Nat) : String :=
  "The name ID " ++ toString nameID ++
  " used in an fvar instance is missing in the name table."

/-- The per-coordinate loop of the fvar/STAT check (lines 215-220): for
each `(axis_tag, value)` of the instance, yield one FAIL
`missing-fvar-instance-axis-value` when `is_covered_in_stat` is false. -/
def coordsFindings (font : Font) (instance_name : String) :
    List (String × ℚ) → Except String (List CheckItem)
  | [] => .ok []
  | (axis_tag, value) :: rest => do
      let covered ← is_covered_in_stat font axis_tag value
      let more ← coordsFindings font instance_name rest
      if covered then
        pure more
      else
        pure (CheckItem.fail "missing-fvar-instance-axis-value"
          (instance_name ++ ": '" ++ axis_tag ++ "' axis value '" ++ toString value ++
           "' missing in STAT table.") :: more)

/-- The per-instance body of the fvar/STAT check (lines 206-220): an
instance whose subfamily name ID resolves to nothing yields one FAIL
`missing-name-id` and `continue`s, so no coverage checks run for it. -/
def instanceFindings (font : Font) (ins : NamedInstance) : Except String (List CheckItem) :=
  match getDebugName font.name ins.subfamilyNameID with
  | none => .ok [CheckItem.fail "missing-name-id" (missingNameMsg ins.subfamilyNameID)]
  | some instance_name => coordsFindings font instance_name ins.coordinates

/-- The instance loop of the fvar/STAT check (lines 206-220). -/
def instancesFindings (font : Font) : List NamedInstance → Except String (List CheckItem)
  | [] => .ok []
  | ins :: rest => do
      let a ← instanceFindings font ins
      let b ← instancesFindings font rest
      pure (a ++ b)

/-- `com_fontwerk_check_inconsistencies_between_fvar_stat` (lines 195-222).
The function is a generator (its body contains `yield` statements), and in
the missing-STAT branch it executes
`return FAIL, Message("missing-stat-table", ...)`.  In Python, `return v`
inside a generator terminates iteration WITHOUT yielding `v` (the tuple
only lands in `StopIteration.value`, which the iterating check runner
discards), so that branch contributes no items at all. -/
def com_fontwerk_check_inconsistencies_between_fvar_stat (font : Font) :
    Except String (List CheckItem) :=
  match font.stat with
  | none => .ok []
  | some _ => instancesFindings font font.fvar.instances

/-- Coverage of one STAT record in the words of the specification (C4): a
record covers `(axis_tag, value)` when its design axis matches the tag and
it is format 1 or 3 with `Value = value`, format 3 with
`LinkedValue = value`, or format 2 with `NominalValue = value`; format-4
records never cover. -/
def specRecordCovers (designAxisTags : List String) (axis_tag : String) (value : ℚ) :
    AxisValue → Bool
  | .format1 idx v => decide (designAxisTags[idx]? = some axis_tag ∧ v = value)
  | .format2 idx nv _ _ => decide (designAxisTags[idx]? = some axis_tag ∧ nv = value)
  | .format3 idx v lv =>
      decide (designAxisTags[idx]? = some axis_tag ∧ (v = value ∨ lv = value))
  | .format4 _ => false

/-- Coverage in the words of the specification, over the whole table. -/
def specCovered (stat : STATTable) (axis_tag : String) (value : ℚ) : Bool :=
  match stat.axisValueArray with
  | none => false
  | some avs => avs.any (specRecordCovers stat.designAxisTags axis_tag value)

/-- Concrete font for C1: variable font with an instance but no STAT. -/
def c1font : Font where
  fvar := { axes := [{ axisTag := "wght", defaultValue := 400 }],
            instances := [{ subfamilyNameID := 3, coordinates := [("wght", 500)] }] }
  os2 := { usWeightClass := 400 }
  name := [(3, "Medium")]
  stat := none
  glyphOrder := []

/-- Concrete font for the C4 counterexample: STAT with one format-4 record. -/
def c4font : Font where
  fvar := { axes := [{ axisTag := "wght", defaultValue := 400 }], instances := [] }
  os2 := { usWeightClass := 400 }
  name := []
  stat := some { designAxisTags := ["wght"],
                 axisValueArray := some [AxisValue.format4 [(0, 400)]] }
  glyphOrder := []

/-- Concrete STAT table for the C4 witness: format-1 and format-3 records. -/
def c4statOk : STATTable :=
  { designAxisTags := ["wght"],
    axisValueArray := some [AxisValue.format1 0 400, AxisValue.format3 0 700 400] }

/-- Concrete font for the C4 witness. -/
def c4fontOk : Font where
  fvar := { axes := [{ axisTag := "wght", defaultValue := 400 }], instances := [] }
  os2 := { usWeightClass := 400 }
  name := []
  stat := some c4statOk
  glyphOrder := []

/-- C8 witness data: an instance whose name ID 5 is not in the name table. -/
def c8insA : NamedInstance := { subfamilyNameID := 5, coordinates := [("wght", 250)] }

/-- C8 witness data: an instance whose name ID 6 resolves to "Bold". -/
def c8insB : NamedInstance := { subfamilyNameID := 6, coordinates := [("wght", 700)] }

/-- Concrete STAT table for the C8 witness. -/
def c8stat : STATTable :=
  { designAxisTags := ["wght"], axisValueArray := some [AxisValue.format1 0 700] }

/-- Concrete font for the C8 witness. -/
def c8font : Font where
  fvar := { axes := [{ axisTag := "wght", defaultValue := 400 }],
            instances := [c8insA, c8insB] }
  os2 := { usWeightClass := 400 }
  name := [(6, "Bold")]
  stat := some c8stat
  glyphOrder := []

/-- Python `set(...)` built by inserting elements left to right.  Python's
set iteration order is implementation-defined, so the checks only rely on
cardinality and membership, which this first-occurrence list model
preserves. -/
def pySetStep {α : Type} [DecidableEq α] (acc : List α) (x : α) : List α :=
  if x ∈ acc then acc else acc ++ [x]

def pySet {α : Type} [DecidableEq α] (l : List α) : List α :=
  l.foldl pySetStep []

/-- CPython's default `rel_tol` for `math.isclose`. -/
def relTol : ℚ := 1 / 1000000000

/-- `close_enough(value_a, value_b, tolerance)` (fontwerk.py lines 65-70),
i.e. `math.isclose(value_a, value_b, abs_tol=tolerance)`, modelled over
`ℚ` by CPython's documented formula
`abs(a-b) <= max(rel_tol * max(abs(a), abs(b)), abs_tol)`. -/
def close_enough (value_a value_b : ℚ) (tolerance : ℚ) : Bool :=
  decide (|value_a - value_b| ≤ max (relTol * max |value_a| |value_b|) tolerance)

/-- `get_degree_of_line(point_a, point_b)` (lines 72-75), parametrised by
`atan2deg y x` standing for the external `degrees(atan2(y, x))`. -/
def get_degree_of_line (atan2deg : ℚ → ℚ → ℚ) (point_a point_b : ℚ × ℚ) : ℚ :=
  atan2deg (point_b.2 - point_a.2) (point_b.1 - point_a.1)

/-- `normalize_degree(deg)` (lines 77-80). -/
def normalize_degree (deg : ℚ) : ℚ :=
  if deg < 0 then deg + 360 else deg

/-- `add_dict_set(d, item_dict, item_set)` (lines 58-63): a dict of sets
in insertion order. -/
def add_dict_set (d : List (String × List String)) (item_dict : String)
    (item_set : String) : List (String × List String) :=
  if item_dict ∈ d.map Prod.fst then
    d.map fun e =>
      if e.1 = item_dict then (e.1, if item_set ∈ e.2 then e.2 else e.2 ++ [item_set])
      else e
  else d ++ [(item_dict, [item_set])]

/-- `numberOfContours` — every fontTools glyph object has the attribute:
`len(endPtsOfContours)` for a simple glyph, `-1` for a composite glyph,
`0` for an empty glyph. -/
def Glyph.numberOfContours : Glyph → ℤ
  | .simple _ eps => (eps.length : ℤ)
  | .composite _ => -1
  | .empty => 0

/-- `g.isComposite()`. -/
def Glyph.isComposite (g : Glyph) : Bool :=
  decide (g.numberOfContours = -1)

/-- `getattr(g, 'coordinates', None)` through an optional glyph (`None`
has no attributes, but `getattr` with a default does not raise). -/
def coordGetattr : Option Glyph → Option (List (ℚ × ℚ))
  | some (.simple cs _) => some cs
  | _ => none

/-- The element one gathered glyph contributes to `points_set` (line 251):
`len(g.coordinates)` when `getattr(g, 'coordinates', None)` is truthy
(attribute present and the point list non-empty). -/
def pointsEntry (g? : Option Glyph) : Option Nat :=
  match coordGetattr g? with
  | some [] => none
  | some cs => some cs.length
  | none => none

/-- The comprehension feeding `points_set` (line 251). -/
def pointsListOf (glyphs : List (Option Glyph)) : List Nat :=
  glyphs.filterMap pointsEntry

/-- The element contributed to `contours_set` (line 261):
`g.numberOfContours` when `getattr(g, 'numberOfContours', None)` is truthy
(`None` for an absent glyph and the falsy `0` of an empty glyph are
excluded; the `-1` of a composite IS truthy and included). -/
def contourEntry : Option Glyph → Option ℤ
  | none => none
  | some g => if g.numberOfContours = 0 then none else some g.numberOfContours

/-- The comprehension feeding `contours_set` (line 261). -/
def contoursListOf (glyphs : List (Option Glyph)) : List ℤ :=
  glyphs.filterMap contourEntry

def errNoneIsComposite : String :=
  "AttributeError: 'NoneType' object has no attribute 'isComposite'"

/-- `{g.isComposite() for g in glyphs}` (line 266) iterates ALL gathered
entries with a direct method call, so an absent glyph (`None`) raises
AttributeError. -/
def compositeListOf : List (Option Glyph) → Except String (List Bool)
  | [] => .ok []
  | none :: _ => .error errNoneIsComposite
  | some g :: rest => do
      let bs ← compositeListOf rest
      pure (g.isComposite :: bs)

/-- The element contributed to the `components_set` comprehension
(line 271): `g.components` when `getattr(g, 'components', None)` is
truthy. -/
def componentsEntry : Option Glyph → Option (List (String × ℚ × ℚ))
  | some (.composite []) => none
  | some (.composite comps) => some comps
  | _ => none

/-- The filtered element list of the `components_set` comprehension. -/
def componentsListOf (glyphs : List (Option Glyph)) :
    List (List (String × ℚ × ℚ)) :=
  glyphs.filterMap componentsEntry

/-- `g.endPtsOfContours` by direct attribute access (line 284): raises
AttributeError on `None` and on glyphs without the attribute (composite
and empty glyphs). -/
def endPtsAttr : Option Glyph → Except String (List Nat)
  | some (.simple _ eps) => .ok eps
  | some _ => .error "AttributeError: 'Glyph' object has no attribute 'endPtsOfContours'"
  | none => .error "AttributeError: 'NoneType' object has no attribute 'endPtsOfContours'"

/-- `g.coordinates` by direct attribute access (lines 285-289). -/
def coordinatesAttr : Option Glyph → Except String (List (ℚ × ℚ))
  | some (.simple cs _) => .ok cs
  | some _ => .error "AttributeError: 'Glyph' object has no attribute 'coordinates'"
  | none => .error "AttributeError: 'NoneType' object has no attribute 'coordinates'"

/-- Python sequence indexing `coords[i]`: negative indices wrap around
once, anything else out of range raises IndexError. -/
def pyGetCoord (coords : List (ℚ × ℚ)) (i : ℤ) : Except String (ℚ × ℚ) :=
  if 0 ≤ i then
    match coords[i.toNat]? with
    | some p => .ok p
    | none => .error "IndexError: list index out of range"
  else if 0 ≤ i + coords.length then
    match coords[(i + coords.length).toNat]? with
    | some p => .ok p
    | none => .error "IndexError: list index out of range"
  else .error "IndexError: list index out of range"

/-- The inner `for n in g.endPtsOfContours` loop (lines 284-299): per
contour end point, compare the bearing of the final segment in the
current and previous instance; when neither the raw nor the normalized
bearings are `close_enough` within 45, flag the glyph and `break`. -/
def scanEnds (atan2deg : ℚ → ℚ → ℚ) (g? prev? : Option Glyph) :
    List Nat → Except String Bool
  | [] => .ok false
  | n :: rest => do
      let gcs ← coordinatesAttr g?
      let end_point ← pyGetCoord gcs (n : ℤ)
      let before_end_point ← pyGetCoord gcs ((n : ℤ) - 1)
      let pcs ← coordinatesAttr prev?
      let pre_end_point ← pyGetCoord pcs (n : ℤ)
      let pre_before_end_point ← pyGetCoord pcs ((n : ℤ) - 1)
      let deg := get_degree_of_line atan2deg before_end_point end_point
      let pre_deg := get_degree_of_line atan2deg pre_before_end_point pre_end_point
      if close_enough deg pre_deg 45 then
        scanEnds atan2deg g? prev? rest
      else if close_enough (normalize_degree deg) (normalize_degree pre_deg) 45 then
        scanEnds atan2deg g? prev? rest
      else
        .ok true

/-- The `for i, g in enumerate(glyphs)` loop (lines 276-299), carrying the
previous entry.  The inner `break` only leaves the contour loop; later
instance pairs are still scanned (the set `add` is idempotent, so the
glyph is flagged at most once), and an exception in a later pair still
aborts the check. -/
def directionPairsLoop (atan2deg : ℚ → ℚ → ℚ) :
    Option Glyph → List (Option Glyph) → Except String Bool
  | _, [] => .ok false
  | prev?, g? :: rest => do
      let eps ← endPtsAttr g?
      let flagged ← scanEnds atan2deg g? prev? eps
      let more ← directionPairsLoop atan2deg g? rest
      pure (flagged || more)

/-- The whole direction comparison for one glyph (`i = 0` is skipped). -/
def stepDirection (atan2deg : ℚ → ℚ → ℚ) (glyphs : List (Option Glyph)) :
    Except String Bool :=
  match glyphs with
  | [] => .ok false
  | g0 :: rest => directionPairsLoop atan2deg g0 rest

def titlePoints : String := "Differences in 'coordinates' (number of points)"

def titleContours : String := "Differences in 'numberOfContours'"

def titleComposite : String := "Differences in 'isComposite'"

def titleComponents : String := "Differences in 'components'"

def titleDirection : String := "Differences in end point direction (more than 45 degree)"

def typeErrorUnhashable : String := "TypeError: unhashable type: 'list'"

/-- Direction phase of the per-glyph body, wrapped as the `errs` title the
glyph is recorded under (if any). -/
def stepDirectionWrap (atan2deg : ℚ → ℚ → ℚ) (glyphs : List (Option Glyph)) :
    Except String (Option String) := do
  let flagged ← stepDirection atan2deg glyphs
  pure (if flagged then some titleDirection else none)

/-- The components comparison (lines 271-274).  `g.components` is a Python
list, and lists are unhashable, so building `components_set` raises
TypeError as soon as the comprehension produces a truthy element; when
the filtered elements are empty the set is empty and the glyph proceeds.
(This point is unreachable with a truthy element anyway: a composite glyph
contributes nothing to `points_set`, so mixed composite/simple glyphs are
caught earlier and all-composite glyphs are skipped at the points test.) -/
def stepComponents (atan2deg : ℚ → ℚ → ℚ) (glyphs : List (Option Glyph)) :
    Except String (Option String) :=
  match componentsListOf glyphs with
  | [] => stepDirectionWrap atan2deg glyphs
  | _ :: _ => .error typeErrorUnhashable

/-- The composite-status comparison (lines 266-269). -/
def stepComposite (atan2deg : ℚ → ℚ → ℚ) (glyphs : List (Option Glyph)) :
    Except String (Option String) := do
  let comps ← compositeListOf glyphs
  if 1 < (pySet comps).length then pure (some titleComposite)
  else stepComponents atan2deg glyphs

/-- The per-glyph body (lines 247-299): the four structural comparisons
run in order, stopping at the first that fails (`continue`), then the
direction comparison; the result is the `errs` title the glyph is
recorded under, if any.  A glyph with an empty `points_set` is skipped
entirely. -/
def processGlyph (atan2deg : ℚ → ℚ → ℚ) (glyphs : List (Option Glyph)) :
    Except String (Option String) :=
  if pySet (pointsListOf glyphs) = [] then .ok none
  else if 1 < (pySet (pointsListOf glyphs)).length then .ok (some titlePoints)
  else if 1 < (pySet (contoursListOf glyphs)).length then .ok (some titleContours)
  else stepComposite atan2deg glyphs

/-- The `glyf` table of an instantiated static font: glyph name → glyph. -/
abbrev GlyfTable := List (String × Glyph)

/-- `font_instance['glyf'].get(g_name, None)` (line 249). -/
def glyfGet (t : GlyfTable) (g_name : String) : Option Glyph :=
  (t.find? (fun e => e.1 == g_name)).map Prod.snd

/-- Python dict assignment `d[k] = v`: replace in place when the key
exists (keeping its original position), else append. -/
def pyDictInsert (d : List (Option String × GlyfTable)) (k : Option String)
    (v : GlyfTable) : List (Option String × GlyfTable) :=
  if k ∈ d.map Prod.fst then d.map (fun e => if e.1 = k then (e.1, v) else e)
  else d ++ [(k, v)]

/-- The materialization loop (lines 239-243): one
`instancer.instantiateVariableFont` call per named instance, stored in a
dict keyed by `name.getDebugName(subfamilyNameID)` — `None` for an
unresolvable name — so instances with equal (or equally unresolvable)
names overwrite one another. -/
def materializeInstances (instantiate : List (String × ℚ) → GlyfTable) (font : Font) :
    List (Option String × GlyfTable) :=
  font.fvar.instances.foldl
    (fun d ins =>
      pyDictInsert d (getDebugName font.name ins.subfamilyNameID)
        (instantiate ins.coordinates))
    []

/-- The per-glyph loop of the check, accumulating `errs` (lines 245-299). -/
def interpErrsLoop (atan2deg : ℚ → ℚ → ℚ)
    (font_instances : List (Option String × GlyfTable)) :
    List String → List (String × List String) →
    Except String (List (String × List String))
  | [], errs => .ok errs
  | g_name :: rest, errs => do
      let r ← processGlyph atan2deg (font_instances.map fun e => glyfGet e.2 g_name)
      match r with
      | none => interpErrsLoop atan2deg font_instances rest errs
      | some title =>
          interpErrsLoop atan2deg font_instances rest (add_dict_set errs title g_name)

/-- `com_fontwerk_check_interpolation_issues` (lines 234-305). -/
def com_fontwerk_check_interpolation_issues (atan2deg : ℚ → ℚ → ℚ)
    (instantiate : List (String × ℚ) → GlyfTable) (font : Font) :
    Except String (List CheckItem) := do
  let errs ← interpErrsLoop atan2deg (materializeInstances instantiate font)
    font.glyphOrder []
  if errs = [] then pure [CheckItem.pass "No interpolation issues found."]
  else pure (errs.map fun e =>
    CheckItem.fail "interpolation-issues" (e.1 ++ ": " ++ String.intercalate ", " e.2))

/-- `fun y x => degrees(atan2(y, x))` stand-in for evaluations whose
direction phase is never reached. -/
def atanZero : ℚ → ℚ → ℚ := fun _ _ => 0

/-- Glyf table of the first materialized instance in the C2
counterexample: glyph "g" present with three points. -/
def c2glyf : GlyfTable := [("g", Glyph.simple [(0, 0), (1, 0), (0, 1)] [2])]

/-- Instantiation capability for the C2 counterexample: glyph "g" is
present at the first instance's coordinates and absent at the second's. -/
def c2instantiate : List (String × ℚ) → GlyfTable :=
  fun coords => if coords = [("wght", 400)] then c2glyf else []

/-- Concrete font for the C2 counterexample. -/
def c2font : Font where
  fvar := { axes := [{ axisTag := "wght", defaultValue := 400 }],
            instances := [{ subfamilyNameID := 1, coordinates := [("wght", 400)] },
                          { subfamilyNameID := 2, coordinates := [("wght", 700)] }] }
  os2 := { usWeightClass := 400 }
  name := [(1, "Regular"), (2, "Bold")]
  stat := none
  glyphOrder := ["g"]

/-- Gathered outlines of the C2 amended-claim witness: one point-bearing
glyph and one absent (`None`) entry. -/
def c2amendedGlyphs : List (Option Glyph) :=
  [some (Glyph.simple [(0, 0), (1, 0), (0, 1)] [2]), none]

/-- Instantiation capability that returns an empty glyf table. -/
def instantiateNothing : List (String × ℚ) → GlyfTable := fun _ => []

/-- Concrete font for the C5 counterexample: two named instances, both
with unresolvable subfamily name IDs (empty name table). -/
def c5font : Font where
  fvar := { axes := [{ axisTag := "wght", defaultValue := 400 }],
            instances := [{ subfamilyNameID := 11, coordinates := [("wght", 400)] },
                          { subfamilyNameID := 12, coordinates := [("wght", 700)] }] }
  os2 := { usWeightClass := 400 }
  name := []
  stat := none
  glyphOrder := []

/-- Previous-instance glyph for C6: one contour ending at index 2, final
segment from (1,1) to (2,3). -/
def c6prevGlyph : Glyph := Glyph.simple [(0, 0), (1, 1), (2, 3)] [2]

/-- Current-instance glyph for C6: identical structure, final segment from
(4,1) to (9,7). -/
def c6currGlyph : Glyph := Glyph.simple [(0, 0), (4, 1), (9, 7)] [2]

/-- Gathered outlines for C6: two consecutive instances with identical
point, contour and composite structure. -/
def c6glyphs : List (Option Glyph) := [some c6prevGlyph, some c6currGlyph]

/-- Bearing function for the C6 witness, 44-degree case: the current
final segment (vector (5,6)) gets bearing 100, the previous one 56. -/
def c6funA : ℚ → ℚ → ℚ := fun _ x => if x = 5 then 100 else 56

/-- Bearing function for the C6 witness, 46-degree case: bearings 100 and
54, whose normalized values also differ by 46. -/
def c6funB : ℚ → ℚ → ℚ := fun _ x => if x = 5 then 100 else 54

/-- Gathered outlines for the C7 witness: 4 points in one instance, 5 in
the other. -/
def c7glyphs : List (Option Glyph) :=
  [some (Glyph.simple [(0, 0), (0, 1), (1, 0), (1, 1)] [3]),
   some (Glyph.simple [(0, 0), (0, 2), (2, 0), (2, 2), (1, 1)] [4])]

/-- Gathered outlines for the C10 witness: empty in one instance,
point-bearing in the other. -/
def c10glyphs : List (Option Glyph) :=
  [some Glyph.empty, some (Glyph.simple [(0, 0), (0, 2), (2, 0)] [2])]

/-- Sequencing of two generator segments: run both, concatenate their
yielded items (any raised exception aborts the whole run). -/
def exceptAppend (x y : Except String (List CheckItem)) : Except String (List CheckItem) := do
  let a ← x
  let b ← y
  pure (a ++ b)

/-- Like `exceptAppend`, with a single item yielded between the two
segments. -/
def exceptAppendMid (x : Except String (List CheckItem)) (item : CheckItem)
    (y : Except String (List CheckItem)) : Except String (List CheckItem) := do
  let a ← x
  let b ← y
  pure (a ++ item :: b)

theorem abs_sub_pyInt_lt_one (q : ℚ) : |q - (pyInt q : ℚ)| < 1 := by
  unfold pyInt
  split
  · rw [abs_lt]
    constructor
    · have h := Int.ceil_lt_add_one q
      linarith
    · have h := Int.le_ceil q
      linarith
  · rw [abs_lt]
    constructor
    · have h := Int.floor_le q
      linarith
    · have h := Int.lt_floor_add_one q
      linarith

/-- C3: for every variable font with a `wght` axis, the weight-class check
yields no `bad-weight-class` finding when the fvar `wght` default equals
`OS/2.usWeightClass` as integers, and yields exactly one `bad-weight-class`
finding whenever the two values differ by at least 1. -/
theorem weight_class_fvar_agreement (font : Font) (v : ℚ)
    (h : dictGet (default_axis_values font.fvar) "wght" = some v) :
    (pyInt v = (font.os2.usWeightClass : ℤ) →
      countKeyword (com_fontwerk_check_weight_class_fvar font) "bad-weight-class" = 0) ∧
    (1 ≤ |v - (font.os2.usWeightClass : ℚ)| →
      countKeyword (com_fontwerk_check_weight_class_fvar font) "bad-weight-class" = 1) := by
  constructor
  · intro heq
    simp only [com_fontwerk_check_weight_class_fvar, h]
    rw [if_neg]
    · rfl
    · simp [heq]
  · intro hdiff
    have hne : pyInt v ≠ (font.os2.usWeightClass : ℤ) := by
      intro heq
      have habs := abs_sub_pyInt_lt_one v
      rw [heq] at habs
      push_cast at habs
      linarith
    simp only [com_fontwerk_check_weight_class_fvar, h]
    rw [if_pos (by exact fun hc => hne hc.symm)]
    rfl

/-- Witness for C3 at a concrete font (wght default 400, usWeightClass 400):
the hypothesis holds and no `bad-weight-class` finding is yielded. -/
theorem weight_class_fvar_agreement_witness :
    countKeyword (com_fontwerk_check_weight_class_fvar c3font) "bad-weight-class" = 0 :=
  (weight_class_fvar_agreement c3font 400 (by decide)).1 (by decide)

/-- C9: for every variable font whose fvar has no `wght` axis, the
weight-class check yields nothing at all — no finding and no pass record
(the Python generator returns before its first yield). -/
theorem weight_class_fvar_no_wght_noop (font : Font)
    (h : dictGet (default_axis_values font.fvar) "wght" = none) :
    com_fontwerk_check_weight_class_fvar font = [] := by
  simp [com_fontwerk_check_weight_class_fvar, h]

/-- Witness for C9 at a concrete font with only a `wdth` axis. -/
theorem weight_class_fvar_no_wght_noop_witness :
    com_fontwerk_check_weight_class_fvar c9font = [] :=
  weight_class_fvar_no_wght_noop c9font (by decide)

theorem except_bind_ok {ε α β : Type} (a : α) (g : α → Except ε β) :
    (Except.ok a >>= g : Except ε β) = g a := rfl

theorem except_bind_error {ε α β : Type} (e : ε) (g : α → Except ε β) :
    (Except.error e >>= g : Except ε β) = Except.error e := rfl

theorem except_pure {ε α : Type} (a : α) : (pure a : Except ε α) = Except.ok a := rfl

/-- C1 (code bug): for a variable font lacking a STAT table, the
fvar/STAT-consistency check yields NOTHING at all — zero findings — rather
than the single `missing-stat-table` finding the code visibly intends to
report: `return FAIL, Message("missing-stat-table", ...)` inside the
generator ends iteration without yielding the tuple.  Per-instance
analysis is indeed skipped: the concrete font's instance would otherwise
contribute findings (or raise KeyError reading `ttFont['STAT']`), yet the
result is `ok []`, not a one-element finding list. -/
theorem fvar_stat_missing_stat_yields_nothing :
    com_fontwerk_check_inconsistencies_between_fvar_stat c1font = Except.ok [] := rfl

theorem instancesFindings_append (font : Font) (l1 l2 : List NamedInstance) :
    instancesFindings font (l1 ++ l2) =
      exceptAppend (instancesFindings font l1) (instancesFindings font l2) := by
  induction l1 with
  | nil =>
      cases h : instancesFindings font l2 with
      | ok b => simp [instancesFindings, exceptAppend, h, except_bind_ok, except_pure]
      | error e => simp [instancesFindings, exceptAppend, h, except_bind_ok, except_bind_error]
  | cons ins l1 ih =>
      cases h1 : instanceFindings font ins with
      | error e => simp [instancesFindings, exceptAppend, h1, except_bind_error]
      | ok a =>
          cases h2 : instancesFindings font l1 with
          | error e =>
              simp [instancesFindings, exceptAppend, h1, h2, ih, except_bind_ok,
                    except_bind_error, except_pure]
          | ok b =>
              cases h3 : instancesFindings font l2 with
              | error e =>
                  simp [instancesFindings, exceptAppend, h1, h2, h3, ih, except_bind_ok,
                        except_bind_error, except_pure]
              | ok c =>
                  simp [instancesFindings, exceptAppend, h1, h2, h3, ih, except_bind_ok,
                        except_pure, List.append_assoc]

/-- C8: with STAT present, an instance whose subfamily name ID resolves to
nothing in the name table contributes exactly one `missing-name-id`
finding, no axis-coverage checks run for it, and processing continues with
the remaining instances. -/
theorem fvar_stat_missing_name_id (font : Font) (stat : STATTable)
    (pre post : List NamedInstance) (ins : NamedInstance)
    (hstat : font.stat = some stat)
    (hins : font.fvar.instances = pre ++ ins :: post)
    (hname : getDebugName font.name ins.subfamilyNameID = none) :
    com_fontwerk_check_inconsistencies_between_fvar_stat font =
      exceptAppendMid (instancesFindings font pre)
        (CheckItem.fail "missing-name-id" (missingNameMsg ins.subfamilyNameID))
        (instancesFindings font post) := by
  have h1 : instanceFindings font ins =
      Except.ok [CheckItem.fail "missing-name-id" (missingNameMsg ins.subfamilyNameID)] := by
    unfold instanceFindings
    rw [hname]
  unfold com_fontwerk_check_inconsistencies_between_fvar_stat
  rw [hstat]
  rw [hins, instancesFindings_append]
  cases h2 : instancesFindings font pre with
  | error e => simp [exceptAppend, exceptAppendMid, except_bind_error]
  | ok a =>
      cases h3 : instancesFindings font post with
      | error e =>
          simp [instancesFindings, exceptAppend, exceptAppendMid, h1, h3,
                except_bind_ok, except_bind_error]
      | ok b =>
          simp [instancesFindings, exceptAppend, exceptAppendMid, h1, h3,
                except_bind_ok, except_pure]

/-- Witness for C8 at a concrete font: name ID 5 unresolved, followed by a
resolvable instance that continues to be processed. -/
theorem fvar_stat_missing_name_id_witness :
    com_fontwerk_check_inconsistencies_between_fvar_stat c8font =
      exceptAppendMid (instancesFindings c8font [])
        (CheckItem.fail "missing-name-id" (missingNameMsg c8insA.subfamilyNameID))
        (instancesFindings c8font [c8insB]) :=
  fvar_stat_missing_name_id c8font c8stat [] [c8insB] c8insA rfl rfl (by decide)

/-- C4 counterexample: on a STAT whose AxisValueArray holds a format-4
record, `is_covered_in_stat` returns neither true nor false — it raises
AttributeError reading `ax_value.AxisIndex` before the format dispatch —
so the claimed iff fails and the format-4 record is not skipped. -/
theorem is_covered_format4_counterexample :
    is_covered_in_stat c4font "wght" 400 ≠ Except.ok false ∧
    is_covered_in_stat c4font "wght" 400 ≠ Except.ok true := by
  constructor <;> intro h <;>
    rw [show is_covered_in_stat c4font "wght" 400 = Except.error attrErrorAxisIndex
        from rfl] at h <;>
    exact Except.noConfusion h

theorem specRecordCovers_ne (tags : List String) (axis_tag : String) (value : ℚ)
    (av : AxisValue) (idx : Nat) (t : String)
    (hIdx : avAxisIndex av = some idx) (ht : tags[idx]? = some t)
    (hne : axis_tag ≠ t) :
    specRecordCovers tags axis_tag value av = false := by
  have hne' : t ≠ axis_tag := Ne.symm hne
  cases av with
  | format1 i v =>
      simp only [avAxisIndex, Option.some.injEq] at hIdx
      subst hIdx
      simp [specRecordCovers, ht, hne']
  | format2 i nv rmin rmax =>
      simp only [avAxisIndex, Option.some.injEq] at hIdx
      subst hIdx
      simp [specRecordCovers, ht, hne']
  | format3 i v lv =>
      simp only [avAxisIndex, Option.some.injEq] at hIdx
      subst hIdx
      simp [specRecordCovers, ht, hne']
  | format4 recs => simp [specRecordCovers]

theorem specRecordCovers_eq_mem (tags : List String) (axis_tag : String) (value : ℚ)
    (av : AxisValue) (idx : Nat)
    (hIdx : avAxisIndex av = some idx) (ht : tags[idx]? = some axis_tag) :
    specRecordCovers tags axis_tag value av = decide (value ∈ statValuesOf av) := by
  cases av with
  | format1 i v =>
      simp only [avAxisIndex, Option.some.injEq] at hIdx
      subst hIdx
      simp only [specRecordCovers, statValuesOf, ht, List.mem_singleton, true_and,
                 decide_eq_decide]
      exact eq_comm
  | format2 i nv rmin rmax =>
      simp only [avAxisIndex, Option.some.injEq] at hIdx
      subst hIdx
      simp only [specRecordCovers, statValuesOf, ht, List.mem_singleton, true_and,
                 decide_eq_decide]
      exact eq_comm
  | format3 i v lv =>
      simp only [avAxisIndex, Option.some.injEq] at hIdx
      subst hIdx
      simp only [specRecordCovers, statValuesOf, ht, List.mem_cons, List.mem_singleton,
                 List.not_mem_nil, or_false, true_and, decide_eq_decide]
      constructor
      · rintro (h | h)
        · exact Or.inl h.symm
        · exact Or.inr h.symm
      · rintro (h | h)
        · exact Or.inl h.symm
        · exact Or.inr h.symm
  | format4 recs => exact Option.noConfusion hIdx

theorem is_covered_loop_spec (tags : List String) (axis_tag : String) (value : ℚ) :
    ∀ l : List AxisValue,
      (∀ av ∈ l, (avAxisIndex av).isSome) →
      (∀ av ∈ l, ∀ i, avAxisIndex av = some i → i < tags.length) →
      is_covered_loop tags axis_tag value l =
        Except.ok (l.any (specRecordCovers tags axis_tag value)) := by
  intro l
  induction l with
  | nil => intro _ _; rfl
  | cons av rest ih =>
      intro h4 hidx
      have ihr := ih (fun a ha => h4 a (List.mem_cons_of_mem _ ha))
                     (fun a ha => hidx a (List.mem_cons_of_mem _ ha))
      obtain ⟨idx, hidxEq⟩ := Option.isSome_iff_exists.mp (h4 av (List.mem_cons_self _ _))
      have hlt : idx < tags.length := hidx av (List.mem_cons_self _ _) idx hidxEq
      have hget : tags[idx]? = some (tags[idx]) := List.getElem?_eq_getElem hlt
      simp only [is_covered_loop, hidxEq, hget]
      by_cases hax : axis_tag = tags[idx]
      · rw [if_neg (fun hne => hne hax)]
        by_cases hmem : value ∈ statValuesOf av
        · rw [if_pos hmem]
          have hb := specRecordCovers_eq_mem tags axis_tag value av idx hidxEq
            (by rw [hget, hax])
          simp [List.any_cons, hb, hmem]
        · rw [if_neg hmem, ihr]
          have hb := specRecordCovers_eq_mem tags axis_tag value av idx hidxEq
            (by rw [hget, hax])
          simp [List.any_cons, hb, hmem]
      · rw [if_pos hax, ihr]
        have hb := specRecordCovers_ne tags axis_tag value av idx (tags[idx]) hidxEq hget hax
        simp [List.any_cons, hb]

/-- C4 amended: provided every record in the STAT AxisValueArray carries an
`AxisIndex` (i.e. there is no format-4 record, which would raise
AttributeError) and every axis index is within the design-axis array,
`is_covered_in_stat` returns true iff some record whose design axis
matches the tag has (format 1 or 3) its Value, (format 3) its LinkedValue,
or (format 2) its NominalValue exactly equal to the instance value. -/
theorem is_covered_iff_spec (font : Font) (stat : STATTable) (avs : List AxisValue)
    (axis_tag : String) (value : ℚ)
    (hstat : font.stat = some stat)
    (havs : stat.axisValueArray = some avs)
    (h4 : ∀ av ∈ avs, (avAxisIndex av).isSome)
    (hidx : ∀ av ∈ avs, ∀ i, avAxisIndex av = some i → i < stat.designAxisTags.length) :
    is_covered_in_stat font axis_tag value = Except.ok (specCovered stat axis_tag value) := by
  unfold is_covered_in_stat specCovered
  rw [hstat]
  simp only [havs]
  exact is_covered_loop_spec stat.designAxisTags axis_tag value avs h4 hidx

/-- Witness for C4's amended statement at a concrete STAT (one format-1 and
one format-3 record, no format-4 record). -/
theorem is_covered_iff_spec_witness :
    is_covered_in_stat c4fontOk "wght" 400 = Except.ok (specCovered c4statOk "wght" 400) :=
  is_covered_iff_spec c4fontOk c4statOk
    [AxisValue.format1 0 400, AxisValue.format3 0 700 400] "wght" 400 rfl rfl
    (by decide)
    (by
      intro av hav i hi
      fin_cases hav <;>
        simp only [avAxisIndex, Option.some.injEq] at hi <;>
        simp [c4statOk, ← hi])

theorem pySet_foldl_mem {α : Type} [DecidableEq α] (l : List α) (acc : List α) (a : α) :
    a ∈ l.foldl pySetStep acc ↔ a ∈ acc ∨ a ∈ l := by
  induction l generalizing acc with
  | nil => simp
  | cons x xs ih =>
      simp only [List.foldl_cons, pySetStep]
      by_cases hx : x ∈ acc
      · rw [if_pos hx, ih]
        simp only [List.mem_cons]
        constructor
        · rintro (h | h)
          · exact Or.inl h
          · exact Or.inr (Or.inr h)
        · rintro (h | rfl | h)
          · exact Or.inl h
          · exact Or.inl hx
          · exact Or.inr h
      · rw [if_neg hx, ih]
        simp only [List.mem_append, List.mem_singleton, List.mem_cons]
        tauto

theorem pySet_mem {α : Type} [DecidableEq α] (l : List α) (a : α) :
    a ∈ pySet l ↔ a ∈ l := by
  unfold pySet
  rw [pySet_foldl_mem]
  simp

theorem pySet_foldl_nodup {α : Type} [DecidableEq α] (l : List α) (acc : List α)
    (h : acc.Nodup) :
    (l.foldl pySetStep acc).Nodup := by
  induction l generalizing acc with
  | nil => exact h
  | cons x xs ih =>
      simp only [List.foldl_cons, pySetStep]
      apply ih
      by_cases hx : x ∈ acc
      · rwa [if_pos hx]
      · rw [if_neg hx]
        refine List.Nodup.append h (List.nodup_singleton x) ?_
        intro a ha hax
        rw [List.mem_singleton] at hax
        exact hx (hax ▸ ha)

theorem pySet_nodup {α : Type} [DecidableEq α] (l : List α) : (pySet l).Nodup :=
  pySet_foldl_nodup l [] List.nodup_nil

theorem one_lt_length_of_two_mem {α : Type} (s : List α) (a b : α)
    (ha : a ∈ s) (hb : b ∈ s) (hab : a ≠ b) : 1 < s.length := by
  cases s with
  | nil => cases ha
  | cons x xs =>
      cases xs with
      | nil =>
          rw [List.mem_singleton] at ha hb
          exact absurd (ha.trans hb.symm) hab
      | cons y ys =>
          simp only [List.length_cons]
          omega

theorem pySet_all_eq {α : Type} [DecidableEq α] (l : List α) (c : α)
    (hc : c ∈ l) (hall : ∀ x ∈ l, x = c) : pySet l = [c] := by
  have haux : ∀ m : List α, (∀ x ∈ m, x = c) →
      m.foldl pySetStep [c] = [c] := by
    intro m
    induction m with
    | nil => intro _; rfl
    | cons x xs ih =>
        intro hm
        have hx : x = c := hm x (List.mem_cons_self _ _)
        simp only [List.foldl_cons, pySetStep]
        rw [hx, if_pos (List.mem_singleton_self c)]
        exact ih (fun y hy => hm y (List.mem_cons_of_mem _ hy))
  cases l with
  | nil => cases hc
  | cons x xs =>
      have hx : x = c := hall x (List.mem_cons_self _ _)
      unfold pySet
      simp only [List.foldl_cons, pySetStep]
      rw [if_neg (List.not_mem_nil x), List.nil_append, hx]
      exact haux xs (fun y hy => hall y (List.mem_cons_of_mem _ hy))

theorem pySet_length_le_one {α : Type} [DecidableEq α] (l : List α) (c : α)
    (hall : ∀ x ∈ l, x = c) : (pySet l).length ≤ 1 := by
  cases l with
  | nil => simp [pySet]
  | cons x xs =>
      have hc : c ∈ x :: xs := by
        rw [← hall x (List.mem_cons_self _ _)]
        exact List.mem_cons_self _ _
      rw [pySet_all_eq (x :: xs) c hc hall]
      simp

/-- C7: the four topology tests run in order and stop at the first that
fails, so a glyph whose point-count set already has two distinct values —
e.g. 4 contour points in one instance and 5 in another — is recorded under
exactly the point-count title; the contour/composite/components tests and
the direction comparison are never reached for it. -/
theorem topology_first_failure_points (atan2deg : ℚ → ℚ → ℚ)
    (glyphs : List (Option Glyph))
    (h4 : 4 ∈ pointsListOf glyphs) (h5 : 5 ∈ pointsListOf glyphs) :
    processGlyph atan2deg glyphs = Except.ok (some titlePoints) := by
  have hm4 : (4 : Nat) ∈ pySet (pointsListOf glyphs) := (pySet_mem _ _).mpr h4
  have hm5 : (5 : Nat) ∈ pySet (pointsListOf glyphs) := (pySet_mem _ _).mpr h5
  have hne : pySet (pointsListOf glyphs) ≠ [] := List.ne_nil_of_mem hm4
  have hlen : 1 < (pySet (pointsListOf glyphs)).length :=
    one_lt_length_of_two_mem _ 4 5 hm4 hm5 (by decide)
  unfold processGlyph
  rw [if_neg hne, if_pos hlen]

/-- Witness for C7: gathered outlines with 4 points in one instance and 5
in the other yield exactly the point-count finding title. -/
theorem topology_first_failure_points_witness :
    processGlyph atanZero c7glyphs = Except.ok (some titlePoints) :=
  topology_first_failure_points atanZero c7glyphs (by decide) (by decide)

theorem filterMap_eq_filterMap_filter {α β : Type} (f : α → Option β) (l : List α) :
    l.filterMap f = (l.filter fun a => (f a).isSome).filterMap f := by
  induction l with
  | nil => rfl
  | cons x xs ih =>
      cases h : f x with
      | none => simp [List.filterMap_cons, List.filter_cons, h, ih]
      | some b => simp [List.filterMap_cons, List.filter_cons, h, ih]

/-- C10: an instance whose outline has zero points (or no `coordinates`
attribute at all) is excluded from the point-count set, and one whose
contour count is 0 or absent is excluded from the contour-count set;
consequently a glyph that is empty in at least one instance while the
point-bearing instances are uniform produces no point-count or
contour-count finding and proceeds to the composite-status comparison and
the later phases. -/
theorem empty_instances_excluded (atan2deg : ℚ → ℚ → ℚ)
    (glyphs : List (Option Glyph)) (c : Nat) (k : ℤ)
    (_hempty : some Glyph.empty ∈ glyphs)
    (hc : c ∈ pointsListOf glyphs)
    (hallp : ∀ n ∈ pointsListOf glyphs, n = c)
    (hallk : ∀ m ∈ contoursListOf glyphs, m = k) :
    pointsListOf glyphs = pointsListOf (glyphs.filter fun g? => (pointsEntry g?).isSome) ∧
    contoursListOf glyphs = contoursListOf (glyphs.filter fun g? => (contourEntry g?).isSome) ∧
    processGlyph atan2deg glyphs = stepComposite atan2deg glyphs := by
  refine ⟨?_, ?_, ?_⟩
  · exact filterMap_eq_filterMap_filter pointsEntry glyphs
  · exact filterMap_eq_filterMap_filter contourEntry glyphs
  · have hps : pySet (pointsListOf glyphs) = [c] := pySet_all_eq _ c hc hallp
    have hlen : (pySet (contoursListOf glyphs)).length ≤ 1 := pySet_length_le_one _ k hallk
    unfold processGlyph
    rw [if_neg (by rw [hps]; simp), if_neg (by rw [hps]; simp), if_neg (by omega)]

/-- Witness for C10: an empty glyph next to a 3-point glyph passes the
point-count and contour-count tests and proceeds to the composite step. -/
theorem empty_instances_excluded_witness :
    processGlyph atanZero c10glyphs = stepComposite atanZero c10glyphs :=
  (empty_instances_excluded atanZero c10glyphs 3 1 (by decide) (by decide)
    (by decide) (by decide)).2.2

theorem compositeListOf_error_of_none (glyphs : List (Option Glyph))
    (h : (none : Option Glyph) ∈ glyphs) :
    compositeListOf glyphs = Except.error errNoneIsComposite := by
  induction glyphs with
  | nil => cases h
  | cons g? rest ih =>
      cases g? with
      | none => rfl
      | some g =>
          have hr : (none : Option Glyph) ∈ rest := by
            rcases List.mem_cons.mp h with h1 | h1
            · exact absurd h1 (by simp)
            · exact h1
          simp [compositeListOf, ih hr, except_bind_error]

/-- C2 amended: a glyph absent from a materialized instance is gathered as
`None` rather than skipped; `None` entries are filtered out of the
point-count and contour-count sets, but the composite-status comparison
calls `isComposite()` on every gathered entry, so a glyph absent in one
instance while point-bearing (with uniform point and contour counts) in
the others raises AttributeError, which aborts the whole check. -/
theorem absent_glyph_aborts (atan2deg : ℚ → ℚ → ℚ)
    (glyphs : List (Option Glyph)) (c : Nat)
    (hnone : (none : Option Glyph) ∈ glyphs)
    (hpts : pySet (pointsListOf glyphs) = [c])
    (hcont : (pySet (contoursListOf glyphs)).length ≤ 1) :
    processGlyph atan2deg glyphs = Except.error errNoneIsComposite := by
  unfold processGlyph
  rw [if_neg (by rw [hpts]; simp), if_neg (by rw [hpts]; simp), if_neg (by omega)]
  unfold stepComposite
  rw [compositeListOf_error_of_none glyphs hnone]
  exact except_bind_error _ _

/-- Witness for C2's amended statement: a 3-point glyph next to an absent
(`None`) entry aborts the per-glyph body with AttributeError. -/
theorem absent_glyph_aborts_witness :
    processGlyph atanZero c2amendedGlyphs = Except.error errNoneIsComposite :=
  absent_glyph_aborts atanZero c2amendedGlyphs 3 (by decide) (by decide) (by decide)

/-- C2 counterexample: at a concrete font whose glyph "g" is present with
points in the first materialized instance and absent in the second, the
whole interpolation check raises AttributeError (`None.isComposite()`) and
aborts with no findings at all, instead of skipping the absent instance
and capturing failures as findings. -/
theorem interpolation_aborts_counterexample :
    com_fontwerk_check_interpolation_issues atanZero c2instantiate c2font =
      Except.error errNoneIsComposite := rfl

/-- C5 counterexample: a font with TWO named instances, both of whose
subfamily name IDs resolve to nothing, materializes into a single dict
entry — both get key `None` and the second overwrites the first — so a
named instance IS silently dropped from topology comparison. -/
theorem materialize_drops_instance_counterexample :
    (materializeInstances instantiateNothing c5font).length = 1 ∧
    c5font.fvar.instances.length = 2 := by
  constructor <;> rfl

theorem map_fst_pyDictInsert (d : List (Option String × GlyfTable))
    (k : Option String) (v : GlyfTable) :
    (pyDictInsert d k v).map Prod.fst = pySetStep (d.map Prod.fst) k := by
  unfold pyDictInsert pySetStep
  by_cases h : k ∈ d.map Prod.fst
  · rw [if_pos h, if_pos h, List.map_map]
    apply List.map_congr_left
    intro e _
    dsimp
    split <;> rfl
  · rw [if_neg h, if_neg h, List.map_append]
    rfl

/-- C5 amended: materialization produces one MaterializedInstance per
DISTINCT subfamily-name key, in first-occurrence order — all instances
with unresolvable name IDs share the single key `None`, and an instance
whose key repeats an earlier instance's key overwrites that entry instead
of adding a new one (so such instances are dropped from topology
comparison). -/
theorem materialize_one_entry_per_distinct_name
    (instantiate : List (String × ℚ) → GlyfTable) (font : Font) :
    (materializeInstances instantiate font).map Prod.fst =
      pySet (font.fvar.instances.map fun ins =>
        getDebugName font.name ins.subfamilyNameID) := by
  have haux : ∀ (l : List NamedInstance) (d : List (Option String × GlyfTable)),
      (l.foldl (fun d ins =>
        pyDictInsert d (getDebugName font.name ins.subfamilyNameID)
          (instantiate ins.coordinates)) d).map Prod.fst =
      (l.map fun ins => getDebugName font.name ins.subfamilyNameID).foldl
        pySetStep (d.map Prod.fst) := by
    intro l
    induction l with
    | nil => intro d; rfl
    | cons ins rest ih =>
        intro d
        simp only [List.foldl_cons, List.map_cons]
        rw [ih, map_fst_pyDictInsert]
  unfold materializeInstances pySet
  rw [haux]
  rfl

theorem relTol_mul_le_45 (a b : ℚ) (ha : |a| ≤ 360) (hb : |b| ≤ 360) :
    relTol * max |a| |b| ≤ 45 := by
  have h : max |a| |b| ≤ 360 := max_le ha hb
  have h2 : relTol * max |a| |b| ≤ relTol * 360 := by
    apply mul_le_mul_of_nonneg_left h
    norm_num [relTol]
  calc relTol * max |a| |b| ≤ relTol * 360 := h2
    _ ≤ 45 := by norm_num [relTol]

theorem close_enough_45_iff (a b : ℚ) (ha : |a| ≤ 360) (hb : |b| ≤ 360) :
    close_enough a b 45 = true ↔ |a - b| ≤ 45 := by
  unfold close_enough
  rw [max_eq_right (relTol_mul_le_45 a b ha hb)]
  simp

theorem normalize_degree_abs_le (q : ℚ) (h : |q| ≤ 180) :
    |normalize_degree q| ≤ 360 := by
  have h' := abs_le.mp h
  unfold normalize_degree
  split
  · rw [abs_le]
    constructor <;> linarith [h'.1, h'.2]
  · rw [abs_le]
    constructor <;> linarith [h'.1, h'.2]

theorem processGlyph_c6_eval (atan2deg : ℚ → ℚ → ℚ) (b1 b2 : Bool)
    (h1 : close_enough (atan2deg 6 5) (atan2deg 2 1) 45 = b1)
    (h2 : close_enough (normalize_degree (atan2deg 6 5))
      (normalize_degree (atan2deg 2 1)) 45 = b2) :
    processGlyph atan2deg c6glyphs =
      Except.ok (if b1 then none else if b2 then none else some titleDirection) := by
  have hg1 : get_degree_of_line atan2deg (4, 1) (9, 7) = atan2deg 6 5 := by
    unfold get_degree_of_line
    norm_num
  have hg2 : get_degree_of_line atan2deg (1, 1) (2, 3) = atan2deg 2 1 := by
    unfold get_degree_of_line
    norm_num
  have hred : processGlyph atan2deg c6glyphs =
      ((scanEnds atan2deg (some c6currGlyph) (some c6prevGlyph) [2] >>= fun flagged =>
        directionPairsLoop atan2deg (some c6currGlyph) [] >>= fun more =>
        pure (flagged || more)) >>= fun fl =>
        pure (if fl then some titleDirection else none)) := rfl
  have hscan : scanEnds atan2deg (some c6currGlyph) (some c6prevGlyph) [2] =
      (if close_enough (get_degree_of_line atan2deg (4, 1) (9, 7))
          (get_degree_of_line atan2deg (1, 1) (2, 3)) 45 then Except.ok false
       else if close_enough (normalize_degree (get_degree_of_line atan2deg (4, 1) (9, 7)))
          (normalize_degree (get_degree_of_line atan2deg (1, 1) (2, 3))) 45 then
         Except.ok false
       else Except.ok true) := rfl
  rw [hred, hscan]
  simp only [hg1, hg2, h1, h2]
  cases b1 <;> cases b2 <;> rfl

/-- C6: for two consecutive instances of a glyph with identical point,
contour and composite structure, a final-segment bearing difference of
exactly 44 degrees (before normalization) produces no direction finding, a
difference of exactly 45 degrees also produces none (the tolerance is
inclusive), and a difference of 46 degrees that also exceeds 45 after
normalizing each bearing into [0, 360) produces the direction finding.
`d` and `d'` are the `degrees(atan2(...))` bearings of the two final
segments; atan2 outputs lie in (-180, 180]. -/
theorem direction_tolerance_boundary (atan2deg : ℚ → ℚ → ℚ) (d d' : ℚ)
    (hd : atan2deg 6 5 = d) (hd' : atan2deg 2 1 = d')
    (hdr : |d| ≤ 180) (hd'r : |d'| ≤ 180) :
    ((|d - d'| = 44 ∨ |d - d'| = 45) →
      processGlyph atan2deg c6glyphs = Except.ok none) ∧
    ((|d - d'| = 46 ∧ 45 < |normalize_degree d - normalize_degree d'|) →
      processGlyph atan2deg c6glyphs = Except.ok (some titleDirection)) := by
  have ha360 : |d| ≤ 360 := le_trans hdr (by norm_num)
  have hb360 : |d'| ≤ 360 := le_trans hd'r (by norm_num)
  constructor
  · intro hcase
    have hle : |d - d'| ≤ 45 := by
      rcases hcase with h | h <;> norm_num [h]
    have h1 : close_enough (atan2deg 6 5) (atan2deg 2 1) 45 = true := by
      rw [hd, hd']
      exact (close_enough_45_iff d d' ha360 hb360).mpr hle
    rw [processGlyph_c6_eval atan2deg true
      (close_enough (normalize_degree (atan2deg 6 5)) (normalize_degree (atan2deg 2 1)) 45)
      h1 rfl]
    rfl
  · intro hcase
    have h1 : close_enough (atan2deg 6 5) (atan2deg 2 1) 45 = false := by
      rw [hd, hd']
      apply Bool.eq_false_iff.mpr
      intro hcontra
      rw [close_enough_45_iff d d' ha360 hb360] at hcontra
      rw [hcase.1] at hcontra
      norm_num at hcontra
    have h2 : close_enough (normalize_degree (atan2deg 6 5))
        (normalize_degree (atan2deg 2 1)) 45 = false := by
      rw [hd, hd']
      apply Bool.eq_false_iff.mpr
      intro hcontra
      rw [close_enough_45_iff _ _ (normalize_degree_abs_le d hdr)
        (normalize_degree_abs_le d' hd'r)] at hcontra
      linarith [hcase.2]
    rw [processGlyph_c6_eval atan2deg false false h1 h2]
    rfl

/-- Witness for C6 at concrete bearing functions: bearings 100 and 56
(difference 44) produce no finding; bearings 100 and 54 (difference 46,
normalized difference 46) produce the direction finding. -/
theorem direction_tolerance_boundary_witness :
    processGlyph c6funA c6glyphs = Except.ok none ∧
    processGlyph c6funB c6glyphs = Except.ok (some titleDirection) := by
  constructor
  · exact (direction_tolerance_boundary c6funA 100 56 (by norm_num [c6funA])
      (by norm_num [c6funA]) (by norm_num) (by norm_num)).1 (Or.inl (by norm_num))
  · exact (direction_tolerance_boundary c6funB 100 54 (by norm_num [c6funB])
      (by norm_num [c6funB]) (by norm_num) (by norm_num)).2
      ⟨by norm_num, by norm_num [normalize_degree]⟩
